import Mathlib

/-!
Shallow embedding of `src/main.cpp` of the onnx-runner benchmark harness.

The program is single-threaded; the only external effects are reads of the
monotonic steady clock, calls into the ONNX Runtime engine, a best-effort
battery-statistics reset, sleeps, and a best-effort CSV export.  We model:

* the steady clock as a list of successive readings, in milliseconds
  (`RunEnv.trace`); each `clock::now()` in the source consumes one reading;
* the ONNX Runtime engine as an oracle (`EngineModel`) telling, per call,
  whether session construction throws and whether `session.Run` throws,
  together with the declared input shapes;
* C `double` arithmetic as exact rational arithmetic (`ℚ`);
* the filesystem as flags (`modelExists`, `csvWritable`).

Loops that wait for the clock are driven by the finite trace; a run whose
trace runs out before a phase deadline is mapped to `none` (the real program
would simply keep looping), so every `some` result corresponds to a genuine
terminating execution.
-/

namespace Config

/-- `Config::MODEL_BASE_PATH` (main.cpp line 20). -/
def MODEL_BASE_PATH : String := "/data/local/tmp/models"

/-- `Config::MEASUREMENTS_DIR` (main.cpp line 21). -/
def MEASUREMENTS_DIR : String := "/data/local/tmp/measurements"

/-- `Config::DEFAULT_DYNAMIC_DIM` (main.cpp line 31). -/
def DEFAULT_DYNAMIC_DIM : Int := 1

/-- `Config::CSV_DELIMITER` (main.cpp line 37). -/
def CSV_DELIMITER : String := ","

/-- `Config::FLOAT_PRECISION` (main.cpp line 38). -/
def FLOAT_PRECISION : Nat := 3

/-- `Config::STATS_RESET_DELAY_MS` (main.cpp line 34). -/
def STATS_RESET_DELAY_MS : Nat := 500

end Config

/-- The whitespace class skipped by C `atoi` (`isspace`). -/
def isSpaceChar (c : Char) : Bool :=
  (c == ' ') || (c == '\t') || (c == '\n') || (c == '\x0b') || (c == '\x0c') || (c == '\r')

/-- Value of the maximal leading digit run, as accumulated by C `atoi`. -/
def digitsValue (cs : List Char) : Nat :=
  (cs.takeWhile Char.isDigit).foldl (fun a c => 10 * a + (c.toNat - '0'.toNat)) 0

/-- C `std::atoi` (main.cpp lines 212-214): skip whitespace, read an optional
sign, then a maximal run of decimal digits; a string with no leading digit run
yields 0.  (Overflow is not modelled; the benchmark durations are small.) -/
def atoi (s : String) : Int :=
  match s.data.dropWhile isSpaceChar with
  | [] => 0
  | c :: rest =>
    if c = '-' then -(digitsValue rest : Int)
    else if c = '+' then (digitsValue rest : Int)
    else (digitsValue (c :: rest) : Int)

/-- Whether, after whitespace and an optional sign, the string starts with a
decimal digit — exactly the condition under which `atoi` accumulates a
non-empty digit run. -/
def hasLeadingDigits (s : String) : Bool :=
  match s.data.dropWhile isSpaceChar with
  | [] => false
  | c :: rest =>
    if c = '-' then !(rest.takeWhile Char.isDigit).isEmpty
    else if c = '+' then !(rest.takeWhile Char.isDigit).isEmpty
    else !((c :: rest).takeWhile Char.isDigit).isEmpty

/-- `sanitize_filename` (main.cpp lines 58-63): two in-place `std::replace`
passes, `'/' → '_'` then `'\\' → '_'`. -/
def sanitize_filename (filename : String) : String :=
  String.mk
    ((filename.data.map fun c => if c = '/' then '_' else c).map
      fun c => if c = '\\' then '_' else c)

/-- Decimal digit characters of a natural number, most significant first
(the rendering `operator<<` performs for unsigned integers). -/
def decimalDigits (n : Nat) : List Char :=
  if _h : n < 10 then [Nat.digitChar n]
  else decimalDigits (n / 10) ++ [Nat.digitChar (n % 10)]
decreasing_by exact Nat.div_lt_self (by omega) (by omega)

/-- Decimal rendering of a natural number (e.g. the `uint64_t` CSV fields). -/
def natToString (n : Nat) : String := String.mk (decimalDigits n)

/-- An IEEE `double` value as this program can compute one: a finite value
(modelled exactly as a rational — the quotients here are of small integers,
so rounding is not the point of contention), or one of the non-finite
results a division can produce. -/
inductive DoubleVal where
  | finite (q : ℚ)
  | inf
  | negInf
  | nan
deriving DecidableEq, Repr

/-- IEEE `double` division on finite operands, as performed by the metrics
expressions at main.cpp lines 311-315 (all operands there are casts of
integers, hence finite): a zero divisor yields a signed infinity, and
`0.0 / 0.0` yields NaN. -/
def ddiv (a b : ℚ) : DoubleVal :=
  if b = 0 then
    if a = 0 then .nan
    else if 0 < a then .inf
    else .negInf
  else .finite (a / b)

/-- Rendering under `std::fixed << std::setprecision(3)` (main.cpp line 87):
a finite non-negative value is rounded to the nearest thousandth and printed
with exactly three digits after the decimal point; a non-finite value is
printed by the stream as `inf` / `-inf` / `nan` (the fixed precision does
not apply). -/
def fmtFixed3 : DoubleVal → String
  | .finite q =>
    natToString ((⌊q * 1000 + 1 / 2⌋).toNat / 1000) ++ "." ++
      String.mk [Nat.digitChar ((⌊q * 1000 + 1 / 2⌋).toNat / 100 % 10),
                 Nat.digitChar ((⌊q * 1000 + 1 / 2⌋).toNat / 10 % 10),
                 Nat.digitChar ((⌊q * 1000 + 1 / 2⌋).toNat % 10)]
  | .inf => "inf"
  | .negInf => "-inf"
  | .nan => "nan"

/-- Resolution of one declared dimension (main.cpp lines 163-166): a negative
("dynamic") dimension is replaced by `Config::DEFAULT_DYNAMIC_DIM`. -/
def resolveDim (d : Int) : Int :=
  if d < 0 then Config.DEFAULT_DYNAMIC_DIM else d

/-- `input_tensor_size` accumulation (main.cpp lines 162-168): start at 1 and
multiply in every resolved dimension, cast to `size_t`.  The accumulator is a
`size_t`, so each multiplication wraps modulo `2 ^ 64` (unsigned overflow is
defined behavior); the resolved dimensions themselves are non-negative
`int64_t` values, so their cast is value-preserving. -/
def input_tensor_size (shape : List Int) : Nat :=
  shape.foldl (fun acc d => acc * (resolveDim d).toNat % 2 ^ 64) 1

/-- Oracle for the external ONNX Runtime engine: per inference call (indexed
globally across the run), whether `Ort::Session` construction throws and
whether `session.Run` throws; plus the model's declared input shapes. -/
structure EngineModel where
  sessionFails : Nat → Bool
  inputShapes : List (List Int)
  runFails : Nat → Bool

/-- Observable outcome of one `run_onnx_inference` call: an `Ort::Exception`
propagated to the caller, the zero-input warning path (early `return` at
main.cpp lines 133-136, no inference attempted), or a completed inference
pass. -/
inductive InvokeResult where
  | fatal
  | warnedNoInputs
  | ran
deriving DecidableEq, Repr

/-- `run_onnx_inference` (main.cpp lines 121-203), abstracted over the engine
oracle: construct a session (may throw), read the input count, warn and
return if it is zero, synthesize inputs, and run (may throw). -/
def run_onnx_inference (m : EngineModel) (call : Nat) : InvokeResult :=
  if m.sessionFails call then .fatal
  else if m.inputShapes.length = 0 then .warnedNoInputs
  else if m.runFails call then .fatal
  else .ran

/-- Element counts of the tensors synthesized for one call (main.cpp
lines 152-187): one per declared input. -/
def synthesizedSizes (m : EngineModel) : List Nat :=
  m.inputShapes.map input_tensor_size

/-- Outcome of the free-running `while (clock::now() < deadline)` loop
(main.cpp lines 251-259 and 294-302): either a normal exit with the iteration
count, the clock reading that failed the check, and the unconsumed trace; or
an `Ort::Exception` (the `catch` returns -1); or trace exhaustion. -/
inductive LoopOut where
  | ok (iters : Nat) (exitRead : Nat) (rest : List Nat)
  | fatal (iters : Nat)
  | starved
deriving DecidableEq, Repr

/-- The timed inference loop: each iteration reads the clock once, and while
the reading is below the deadline performs one inference call (call indices
continue from `base`) and increments the counter. -/
def phase_loop (m : EngineModel) (deadline : Nat) (base : Nat) :
    List Nat → Nat → LoopOut
  | [], _ => .starved
  | t :: rest, iters =>
    if t < deadline then
      match run_onnx_inference m (base + iters) with
      | .fatal => .fatal iters
      | _ => phase_loop m deadline base rest (iters + 1)
    else .ok iters t rest

/-- Outcome of one whole timed phase, elapsed time included. -/
inductive PhaseOut where
  | ok (iters : Nat) (elapsedMs : Nat) (rest : List Nat)
  | fatal
  | starved
deriving DecidableEq, Repr

/-- One timed phase (warmup: main.cpp lines 246-266; measurement: lines
290-306): read the start time, compute the deadline once as
`start + seconds(S)`, run the loop, then read the clock once more for the
elapsed-milliseconds figure. -/
def timed_phase (m : EngineModel) (seconds : Nat) (base : Nat)
    (trace : List Nat) : PhaseOut :=
  match trace with
  | [] => .starved
  | start :: rest =>
    match phase_loop m (start + 1000 * seconds) base rest 0 with
    | .fatal _ => .fatal
    | .starved => .starved
    | .ok iters _ rest2 =>
      match rest2 with
      | [] => .starved
      | tEnd :: rest3 => .ok iters (tEnd - start) rest3

/-- Milliseconds slept by the silence phase (main.cpp lines 269-273): the
phase body runs only when `silence_seconds > 0`. -/
def silence_sleep_ms (silence_seconds : Int) : Nat :=
  if 0 < silence_seconds then (1000 * silence_seconds).toNat else 0

/-- The final aggregate of a completed run (main.cpp lines 310-315 compute
the derived fields). -/
structure BenchRecord where
  model : String
  timestamp : String
  warmupIterations : Nat
  warmupElapsedMs : Nat
  measurementIterations : Nat
  measurementElapsedMs : Nat
  usPerInference : DoubleVal
  totalTimeSec : DoubleVal
  throughput : DoubleVal
deriving DecidableEq, Repr

/-- The metrics step (main.cpp lines 310-315): the divisions are performed
unconditionally, with no guard on `measurement_iterations` or on the elapsed
time. -/
def mkRecord (model ts : String) (wIters wElapsed mIters mElapsed : Nat) :
    BenchRecord :=
  { model := model
    timestamp := ts
    warmupIterations := wIters
    warmupElapsedMs := wElapsed
    measurementIterations := mIters
    measurementElapsedMs := mElapsed
    usPerInference := ddiv ((mElapsed : ℚ) * 1000) (mIters : ℚ)
    totalTimeSec := ddiv (mElapsed : ℚ) 1000
    throughput := ddiv ((mIters : ℚ) * 1000) (mElapsed : ℚ) }

/-- Header field names written at main.cpp lines 90-97. -/
def csvHeaderFields : List String :=
  ["model", "timestamp", "measurement_iterations", "measurement_elapsed_ms",
   "us_per_inference", "total_time_sec", "warmup_iterations",
   "warmup_elapsed_ms"]

/-- The CSV header row. -/
def csvHeader : String :=
  String.intercalate Config.CSV_DELIMITER csvHeaderFields

/-- The data-row fields, in the order written at main.cpp lines 100-107:
integers via decimal rendering, `double`s via fixed 3-decimal rendering. -/
def csvFields (b : BenchRecord) : List String :=
  [b.model, b.timestamp, natToString b.measurementIterations,
   fmtFixed3 (DoubleVal.finite (b.measurementElapsedMs : ℚ)), fmtFixed3 b.usPerInference,
   fmtFixed3 b.totalTimeSec, natToString b.warmupIterations,
   fmtFixed3 (DoubleVal.finite (b.warmupElapsedMs : ℚ))]

/-- The CSV data row. -/
def csvDataRow (b : BenchRecord) : String :=
  String.intercalate Config.CSV_DELIMITER (csvFields b)

/-- Whole file content written by `export_performance_metrics_csv`: the
header line then the single data line (main.cpp lines 90-107). -/
def csvContent (b : BenchRecord) : String :=
  csvHeader ++ "\n" ++ csvDataRow b ++ "\n"

/-- Output path built at main.cpp lines 76-78. -/
def csvFileName (model ts : String) : String :=
  Config.MEASUREMENTS_DIR ++ "/" ++ sanitize_filename model ++ "_" ++ ts ++
    "_performance.csv"

/-- Aborting phases: where an `Ort::Exception` was caught. -/
inductive BenchPhase where
  | warmup
  | measurement
deriving DecidableEq, Repr

/-- Result of one process invocation: `main`'s exit path. -/
inductive RunResult where
  | usageError
  | fatalError (p : BenchPhase)
  | completed (b : BenchRecord) (csvOk : Bool)
deriving DecidableEq, Repr

/-- The process exit status: 1 for usage/validation errors (main.cpp lines
208, 218, 226), -1 for an `Ort::Exception` during warmup or measurement
(lines 257, 300), 0 otherwise (line 346) — also when the CSV export failed. -/
def RunResult.exitCode : RunResult → Int
  | .usageError => 1
  | .fatalError _ => -1
  | .completed _ _ => 0

/-- The Benchmark Record of a run, when one was produced. -/
def RunResult.benchRecord : RunResult → Option BenchRecord
  | .completed b _ => some b
  | _ => none

/-- The persisted CSV file (path and content), when one was written: only a
completed run whose destination was writable persists anything. -/
def RunResult.persistedCsv : RunResult → Option (String × String)
  | .completed b true => some (csvFileName b.model b.timestamp, csvContent b)
  | _ => none

/-- Number of measurement iterations of a completed run. -/
def RunResult.measIterations : RunResult → Option Nat
  | .completed b _ => some b.measurementIterations
  | _ => none

/-- Environment of one process invocation: the filesystem, the engine, the
steady-clock readings, and the wall-clock timestamp string returned by
`get_current_timestamp`. -/
structure RunEnv where
  modelExists : Bool
  engine : EngineModel
  trace : List Nat
  csvWritable : Bool
  timestamp : String

/-- The phases of `main` after validation (main.cpp lines 242-344): warmup
(skipped when `warmup_seconds` is not positive, leaving counters at 0), the
silence sleep and battery reset (no observable effect on the result), the
measurement phase, the metrics step, and the best-effort CSV export. -/
def runPhases (model : String) (w m : Int) (env : RunEnv) : Option RunResult :=
  match (if 0 < w then timed_phase env.engine w.toNat 0 env.trace
         else PhaseOut.ok 0 0 env.trace) with
  | .starved => none
  | .fatal => some (.fatalError .warmup)
  | .ok wIters wElapsed trace1 =>
    match timed_phase env.engine m.toNat wIters trace1 with
    | .starved => none
    | .fatal => some (.fatalError .measurement)
    | .ok mIters mElapsed _ =>
      some (.completed (mkRecord model env.timestamp wIters wElapsed mIters mElapsed)
        env.csvWritable)

/-- `main` (main.cpp lines 205-347): `argc != 5` check, `atoi` parsing of the
three durations, duration validation, model-existence check, then the
phases.  `args` is `argv[1..]`. -/
def runProgram (args : List String) (env : RunEnv) : Option RunResult :=
  if args.length = 4 then
    if atoi (args.getD 1 "") < 0 ∨ atoi (args.getD 2 "") < 0 ∨
        atoi (args.getD 3 "") ≤ 0 then
      some .usageError
    else if env.modelExists then
      runPhases (args.getD 0 "") (atoi (args.getD 1 "")) (atoi (args.getD 3 "")) env
    else some .usageError
  else some .usageError

/-- The metrics expression of main.cpp line 311 as the code has it: the
latency division is always performed (`some` in every case; at zero
iterations the IEEE result is `+inf`). -/
def code_latency (elapsedMs : ℚ) (iters : Nat) : Option DoubleVal :=
  some (ddiv (elapsedMs * 1000) (iters : ℚ))

/-- Modelled from the spec: the guarded Metrics Aggregator of §4.4 — the
latency is "undefined (must be guarded/skipped) when
`measurement_iterations == 0`". -/
def spec_latency_guarded (elapsedMs : ℚ) (iters : Nat) : Option DoubleVal :=
  if iters = 0 then none else some (ddiv (elapsedMs * 1000) (iters : ℚ))

/-- An engine oracle that never throws, for a model with one input of shape
`[-1, 3, 224, 224]`. -/
def benignEngine : EngineModel :=
  { sessionFails := fun _ => false
    inputShapes := [[-1, 3, 224, 224]]
    runFails := fun _ => false }

/-- An engine oracle whose session construction always throws. -/
def failingEngine : EngineModel :=
  { sessionFails := fun _ => true
    inputShapes := [[-1, 3, 224, 224]]
    runFails := fun _ => false }

/-- An engine oracle for a model declaring zero inputs. -/
def zeroInputEngine : EngineModel :=
  { sessionFails := fun _ => false
    inputShapes := []
    runFails := fun _ => false }

/-- A fully benign environment: model present, engine fine, a steady-clock
trace giving one measurement iteration, writable CSV destination. -/
def benignEnv : RunEnv :=
  { modelExists := true
    engine := benignEngine
    trace := [0, 0, 5000, 5200]
    csvWritable := true
    timestamp := "19700101_000000" }

/-- Environment exhibiting a steady clock that advances past the measurement
deadline between the `measurement_start` read and the first loop check (the
thread being preempted there): the measurement loop then runs 0 iterations. -/
def c1Env : RunEnv :=
  { modelExists := true
    engine := benignEngine
    trace := [0, 5000, 6000]
    csvWritable := true
    timestamp := "19700101_000000" }

/-- Environment whose engine throws on every call, with a trace entering the
measurement loop. -/
def c6Env : RunEnv :=
  { modelExists := true
    engine := failingEngine
    trace := [0, 0]
    csvWritable := true
    timestamp := "19700101_000000" }

/-- Benign environment whose CSV destination is not writable. -/
def c8Env : RunEnv :=
  { modelExists := true
    engine := benignEngine
    trace := [0, 0, 5000, 5200]
    csvWritable := false
    timestamp := "19700101_000000" }

/-- Multiplying a wrapping fold accumulator through: the `size_t` loop of
main.cpp lines 162-168 computes the product of the mapped dimensions
modulo `2 ^ 64`. -/
theorem foldl_mul_mod_map (f : Int → Nat) (l : List Int) (a : Nat)
    (ha : a < 2 ^ 64) :
    l.foldl (fun acc d => acc * f d % 2 ^ 64) a = a * (l.map f).prod % 2 ^ 64 := by
  induction l generalizing a with
  | nil => rw [List.foldl_nil, List.map_nil, List.prod_nil, mul_one, Nat.mod_eq_of_lt ha]
  | cons x xs ih =>
    rw [List.foldl_cons, ih (a * f x % 2 ^ 64) (Nat.mod_lt _ (by norm_num)),
      List.map_cons, List.prod_cons, Nat.mod_mul_mod, mul_assoc]

/-- Claim C3 counterexample: on the all-positive signature
`[2 ^ 32, 2 ^ 32]` the `size_t` accumulator wraps — the computed element
count is 0, not the exact product `2 ^ 64` the claim asserts. -/
theorem tensor_size_wraps_concrete :
    input_tensor_size [(2 : Int) ^ 32, (2 : Int) ^ 32] = 0
    ∧ (([(2 : Int) ^ 32, (2 : Int) ^ 32]).map Int.toNat).prod = 2 ^ 64
    ∧ (∀ d ∈ [(2 : Int) ^ 32, (2 : Int) ^ 32], 0 < d)
    ∧ (0 : Nat) ≠ 2 ^ 64 := by
  refine ⟨by decide, by decide, by decide, by decide⟩

/-- Claim C3 amended: for every input signature, the synthesized element
count is the `size_t` product (modulo `2 ^ 64`) of the resolved dimensions —
every negative (dynamic) dimension replaced by exactly 1 before the product
is computed, and the exact product with no substitution whenever every
declared dimension is positive and the exact product is below `2 ^ 64`. -/
theorem tensor_size_product_resolution (shape : List Int) :
    ((∀ d ∈ shape, 0 < d) → (shape.map Int.toNat).prod < 2 ^ 64 →
      input_tensor_size shape = (shape.map Int.toNat).prod)
    ∧ input_tensor_size shape = (shape.map fun d => (resolveDim d).toNat).prod % 2 ^ 64
    ∧ ∀ d : Int, d < 0 → resolveDim d = 1 := by
  refine ⟨?_, ?_, ?_⟩
  · intro hpos hlt
    rw [input_tensor_size, foldl_mul_mod_map _ _ 1 (by norm_num), one_mul]
    rw [show shape.map (fun d => (resolveDim d).toNat) = shape.map Int.toNat from
      List.map_congr_left fun d hd => by
        rw [resolveDim, if_neg (by have := hpos d hd; omega)]]
    exact Nat.mod_eq_of_lt hlt
  · rw [input_tensor_size, foldl_mul_mod_map _ _ 1 (by norm_num), one_mul]
  · intro d hd
    rw [resolveDim, if_pos hd]
    rfl

/-- Witness for C3 at the concrete signatures `[2, 3]` (all positive, exact)
and `[-1, 3, 224, 224]` (one dynamic dimension). -/
theorem tensor_size_product_resolution_witness :
    input_tensor_size [2, 3] = ([(2 : Int), 3].map Int.toNat).prod
    ∧ input_tensor_size [-1, 3, 224, 224]
        = (([-1, 3, 224, 224] : List Int).map fun d => (resolveDim d).toNat).prod % 2 ^ 64 :=
  ⟨(tensor_size_product_resolution [2, 3]).1 (by decide) (by decide),
   (tensor_size_product_resolution [-1, 3, 224, 224]).2.1⟩

/-- Claim C7: for a model that declares zero inputs (and whose session loads),
an inference invocation is a non-fatal no-op — the warning path is taken, no
inference pass is attempted (the `runFails` oracle is never consulted), and
inside a timed phase loop the call still counts as one iteration. -/
theorem zero_input_model_warning_noop (m : EngineModel)
    (hin : m.inputShapes = []) (hs : ∀ j, m.sessionFails j = false) :
    (∀ k, run_onnx_inference m k = InvokeResult.warnedNoInputs)
    ∧ ∀ d base t rest iters, t < d →
        phase_loop m d base (t :: rest) iters = phase_loop m d base rest (iters + 1) := by
  have hrun : ∀ k, run_onnx_inference m k = InvokeResult.warnedNoInputs := by
    intro k
    simp [run_onnx_inference, hs, hin]
  refine ⟨hrun, ?_⟩
  intro d base t rest iters ht
  rw [phase_loop, if_pos ht, hrun]

/-- Witness for C7 on a concrete zero-input engine. -/
theorem zero_input_model_warning_noop_witness :
    run_onnx_inference zeroInputEngine 0 = InvokeResult.warnedNoInputs
    ∧ phase_loop zeroInputEngine 5000 0 [0] 0 = phase_loop zeroInputEngine 5000 0 [] 1 := by
  have h := zero_input_model_warning_noop zeroInputEngine rfl (fun _ => rfl)
  exact ⟨h.1 0, h.2 5000 0 0 [] 0 (by decide)⟩

/-- Claim C1: the code's metrics step is NOT guarded.  A run exists (model
present, engine fine, but the thread preempted for the whole measurement
window between the start read and the first deadline check) that reaches the
metrics step and the CSV export with `measurement_iterations = 0`, exit
status 0; and the code's always-divide latency differs from the spec's
guarded ("undefined") Metrics Aggregator exactly at zero iterations. -/
theorem metrics_division_reached_with_zero_iterations :
    (runProgram ["model.onnx", "0", "0", "5"] c1Env).bind RunResult.measIterations = some 0
    ∧ (runProgram ["model.onnx", "0", "0", "5"] c1Env).map RunResult.exitCode = some 0
    ∧ code_latency 6000 0 ≠ spec_latency_guarded 6000 0 := by
  refine ⟨rfl, rfl, ?_⟩
  simp [code_latency, spec_latency_guarded]

/-- Claim C2 counterexample: the canonical legacy invocation
`<model_filename> <duration_seconds>` is rejected with the usage error even
in a fully benign environment, rather than accepted. -/
theorem two_arg_invocation_rejected_concrete :
    runProgram ["model.onnx", "5"] benignEnv = some RunResult.usageError
    ∧ RunResult.exitCode RunResult.usageError = 1 :=
  ⟨rfl, rfl⟩

/-- Claim C2 amended: every invocation with exactly two positional arguments
exits with the usage error (status 1); only the four-argument form is
accepted — no legacy two-argument mode exists in this program. -/
theorem two_arg_invocation_always_usage_error (a b : String) (env : RunEnv) :
    runProgram [a, b] env = some RunResult.usageError
    ∧ RunResult.exitCode RunResult.usageError = 1 :=
  ⟨rfl, rfl⟩

/-- Claim C6: a run aborted by a fatal engine error during warmup or
measurement exits with a non-zero status (-1, the `catch` return) and
produces no Benchmark Record: no CSV file is persisted and no partial
record exists. -/
theorem fatal_error_aborts_without_record (args : List String) (env : RunEnv)
    (r : RunResult) (_hrun : runProgram args env = some r)
    (hfatal : ∃ p, r = RunResult.fatalError p) :
    r.exitCode = -1 ∧ r.exitCode ≠ 0 ∧ r.persistedCsv = none ∧ r.benchRecord = none := by
  obtain ⟨p, rfl⟩ := hfatal
  refine ⟨rfl, ?_, rfl, rfl⟩
  show (-1 : Int) ≠ 0
  decide

/-- Witness for C6: with an engine whose session construction throws, the run
aborts in the measurement phase with no record. -/
theorem fatal_error_aborts_without_record_witness :
    RunResult.exitCode (RunResult.fatalError BenchPhase.measurement) = -1
    ∧ RunResult.exitCode (RunResult.fatalError BenchPhase.measurement) ≠ 0
    ∧ RunResult.persistedCsv (RunResult.fatalError BenchPhase.measurement) = none
    ∧ RunResult.benchRecord (RunResult.fatalError BenchPhase.measurement) = none :=
  fatal_error_aborts_without_record ["m.onnx", "0", "0", "5"] c6Env
    (RunResult.fatalError BenchPhase.measurement) rfl ⟨BenchPhase.measurement, rfl⟩

/-- The timed loop's iteration counter only grows from its entry value. -/
theorem phase_loop_iters_le (m : EngineModel) (d base : Nat) :
    ∀ (l : List Nat) (i iters x : Nat) (r : List Nat),
      phase_loop m d base l i = LoopOut.ok iters x r → i ≤ iters := by
  intro l
  induction l with
  | nil =>
    intro i iters x r h
    exact LoopOut.noConfusion (show LoopOut.starved = LoopOut.ok iters x r from h)
  | cons t rest ih =>
    intro i iters x r h
    rw [phase_loop] at h
    by_cases ht : t < d
    · rw [if_pos ht] at h
      rcases hinv : run_onnx_inference m (base + i) with _ | _ | _ <;> rw [hinv] at h
      · exact LoopOut.noConfusion (show LoopOut.fatal i = LoopOut.ok iters x r from h)
      · have := ih (i + 1) iters x r h
        omega
      · have := ih (i + 1) iters x r h
        omega
    · rw [if_neg ht] at h
      have h2 : LoopOut.ok i t rest = LoopOut.ok iters x r := h
      injection h2 with e1 e2 e3
      omega

/-- A normal loop exit happened at a reading that reached the deadline, and
the exit reading together with the unconsumed trace is a suffix of the
readings the loop was given. -/
theorem phase_loop_exit_deadline (m : EngineModel) (d base : Nat) :
    ∀ (l : List Nat) (i iters x : Nat) (r : List Nat),
      phase_loop m d base l i = LoopOut.ok iters x r → d ≤ x ∧ (x :: r) <:+ l := by
  intro l
  induction l with
  | nil =>
    intro i iters x r h
    exact LoopOut.noConfusion (show LoopOut.starved = LoopOut.ok iters x r from h)
  | cons t rest ih =>
    intro i iters x r h
    rw [phase_loop] at h
    by_cases ht : t < d
    · rw [if_pos ht] at h
      rcases hinv : run_onnx_inference m (base + i) with _ | _ | _ <;> rw [hinv] at h
      · exact LoopOut.noConfusion (show LoopOut.fatal i = LoopOut.ok iters x r from h)
      · obtain ⟨hdx, hsfx⟩ := ih (i + 1) iters x r h
        exact ⟨hdx, hsfx.trans (List.suffix_cons t rest)⟩
      · obtain ⟨hdx, hsfx⟩ := ih (i + 1) iters x r h
        exact ⟨hdx, hsfx.trans (List.suffix_cons t rest)⟩
    · rw [if_neg ht] at h
      have h2 : LoopOut.ok i t rest = LoopOut.ok iters x r := h
      injection h2 with e1 e2 e3
      subst e2; subst e3
      exact ⟨by omega, List.suffix_refl _⟩

/-- Claim C4: for a configured measurement duration `S > 0`, the phase loops
until a monotone steady-clock reading reaches the deadline
`start + 1000 * S` computed once at phase entry; provided the first deadline
check happens before the deadline (the near-zero gap between the
`measurement_start` read and the first check) and the phase exits normally,
the elapsed time is at least `1000 * S` milliseconds and at least one
iteration was counted. -/
theorem measurement_phase_elapsed_and_iterations
    (m : EngineModel) (S base start t1 : Nat) (trace0 : List Nat)
    (iters elapsed : Nat) (rest : List Nat)
    (_hS : 0 < S)
    (hchain : List.Chain' (· ≤ ·) (start :: t1 :: trace0))
    (hgap : t1 < start + 1000 * S)
    (h : timed_phase m S base (start :: t1 :: trace0) = PhaseOut.ok iters elapsed rest) :
    1000 * S ≤ elapsed ∧ 1 ≤ iters := by
  simp only [timed_phase] at h
  rcases hpl : phase_loop m (start + 1000 * S) base (t1 :: trace0) 0 with ⟨it, x, r⟩ | it | _
  · rw [hpl] at h
    rcases r with _ | ⟨tEnd, r2⟩
    · exact PhaseOut.noConfusion (show PhaseOut.starved = PhaseOut.ok iters elapsed rest from h)
    · have h2 : PhaseOut.ok it (tEnd - start) r2 = PhaseOut.ok iters elapsed rest := h
      injection h2 with e1 e2 e3
      obtain ⟨hdx, hsfx⟩ :=
        phase_loop_exit_deadline m (start + 1000 * S) base (t1 :: trace0) 0 it x (tEnd :: r2) hpl
      have hch2 : List.Chain' (· ≤ ·) (x :: tEnd :: r2) :=
        hchain.suffix (hsfx.trans (List.suffix_cons start (t1 :: trace0)))
      have hxle : x ≤ tEnd := (List.chain'_cons.mp hch2).1
      rw [phase_loop, if_pos hgap] at hpl
      rcases hinv : run_onnx_inference m (base + 0) with _ | _ | _ <;> rw [hinv] at hpl
      · exact LoopOut.noConfusion (show LoopOut.fatal 0 = LoopOut.ok it x (tEnd :: r2) from hpl)
      · have hone := phase_loop_iters_le m (start + 1000 * S) base trace0 1 it x (tEnd :: r2) hpl
        omega
      · have hone := phase_loop_iters_le m (start + 1000 * S) base trace0 1 it x (tEnd :: r2) hpl
        omega
  · rw [hpl] at h
    exact PhaseOut.noConfusion (show PhaseOut.fatal = PhaseOut.ok iters elapsed rest from h)
  · rw [hpl] at h
    exact PhaseOut.noConfusion (show PhaseOut.starved = PhaseOut.ok iters elapsed rest from h)

/-- Witness for C4 on a concrete monotone trace: S = 5 s, readings
0, 0, 5000, 5200 — one iteration, 5200 ms elapsed. -/
theorem measurement_phase_elapsed_and_iterations_witness :
    1000 * 5 ≤ 5200 ∧ 1 ≤ 1 :=
  measurement_phase_elapsed_and_iterations benignEngine 5 0 0 0 [5000, 5200] 1 5200 []
    (by decide) (by simp [List.chain'_cons]) (by decide) (by rfl)

/-- A normal phase run never yields a usage error: it either aborts in a
phase or completes with a record built by the metrics step and the
environment's CSV writability. -/
theorem runPhases_cases (model : String) (w m : Int) (env : RunEnv) (r : RunResult)
    (h : runPhases model w m env = some r) :
    (∃ p, r = RunResult.fatalError p)
    ∨ ∃ wI wE mI mE,
        r = RunResult.completed (mkRecord model env.timestamp wI wE mI mE) env.csvWritable := by
  rw [runPhases] at h
  rcases hw : (if 0 < w then timed_phase env.engine w.toNat 0 env.trace
               else PhaseOut.ok 0 0 env.trace) with ⟨wI, wE, trace1⟩ | _ | _ <;>
    simp only [hw] at h
  · rcases hm : timed_phase env.engine m.toNat wI trace1 with ⟨mI, mE, rest⟩ | _ | _ <;>
      simp only [hm] at h
    · injection h with h3
      exact Or.inr ⟨wI, wE, mI, mE, h3.symm⟩
    · injection h with h3
      exact Or.inl ⟨BenchPhase.measurement, h3.symm⟩
    · exact Option.noConfusion h
  · injection h with h3
    exact Or.inl ⟨BenchPhase.warmup, h3.symm⟩
  · exact Option.noConfusion h

/-- The CSV-success flag of a completed phase run is exactly the
environment's writability (the export's return value is ignored by `main`). -/
theorem runPhases_completed_csv (model : String) (w m : Int) (env : RunEnv)
    (b : BenchRecord) (ok : Bool)
    (h : runPhases model w m env = some (RunResult.completed b ok)) :
    ok = env.csvWritable := by
  rcases runPhases_cases model w m env (RunResult.completed b ok) h with ⟨p, hp⟩ | ⟨wI, wE, mI, mE, hc⟩
  · exact RunResult.noConfusion hp
  · have h2 := RunResult.completed.inj hc
    exact h2.2

/-- A skipped warmup (non-positive `warmup_seconds`) leaves both warmup
counters at zero in the completed record. -/
theorem runPhases_completed_warmup_skip (model : String) (w m : Int) (env : RunEnv)
    (b : BenchRecord) (ok : Bool)
    (hw : ¬ 0 < w)
    (h : runPhases model w m env = some (RunResult.completed b ok)) :
    b.warmupIterations = 0 ∧ b.warmupElapsedMs = 0 := by
  rw [runPhases, if_neg hw] at h
  rcases hm : timed_phase env.engine m.toNat 0 env.trace with ⟨mI, mE, rest⟩ | _ | _ <;>
    simp only [hm] at h
  · injection h with h3
    have h4 := RunResult.completed.inj h3
    rw [← h4.1]
    exact ⟨rfl, rfl⟩
  · injection h with h3
    exact RunResult.noConfusion h3
  · exact Option.noConfusion h

/-- Claim C5 counterexample: with a well-formed argument count, a positive
measurement duration, a present model file, and no engine error, the process
still exits non-zero (status 1) when the warmup duration is negative —
a cause absent from the claim's "exactly on" list. -/
theorem negative_warmup_nonzero_exit_concrete :
    (runProgram ["model.onnx", "-1", "0", "5"] benignEnv).map RunResult.exitCode = some 1
    ∧ (["model.onnx", "-1", "0", "5"] : List String).length = 4
    ∧ 0 < atoi "5"
    ∧ benignEnv.modelExists = true
    ∧ ∀ p, runProgram ["model.onnx", "-1", "0", "5"] benignEnv ≠ some (RunResult.fatalError p) := by
  refine ⟨rfl, rfl, by decide, rfl, ?_⟩
  intro p hp
  have h0 : runProgram ["model.onnx", "-1", "0", "5"] benignEnv = some RunResult.usageError := rfl
  rw [h0] at hp
  injection hp with h1
  exact RunResult.noConfusion h1

/-- Claim C5 amended: the exit status is non-zero exactly on wrong argument
count, negative warmup or silence duration, non-positive measurement
duration, model file missing, or a fatal engine error during
warmup/measurement; usage/validation exits carry status 1 and fatal engine
exits carry -1 (non-zero and distinct from 1). -/
theorem exit_status_characterization (args : List String) (env : RunEnv) (r : RunResult)
    (h : runProgram args env = some r) :
    (r.exitCode ≠ 0 ↔
      (args.length ≠ 4 ∨ atoi (args.getD 1 "") < 0 ∨ atoi (args.getD 2 "") < 0 ∨
        atoi (args.getD 3 "") ≤ 0 ∨ env.modelExists = false ∨ ∃ p, r = RunResult.fatalError p))
    ∧ ((args.length ≠ 4 ∨ atoi (args.getD 1 "") < 0 ∨ atoi (args.getD 2 "") < 0 ∨
        atoi (args.getD 3 "") ≤ 0 ∨ env.modelExists = false) → r.exitCode = 1)
    ∧ (∀ p, r = RunResult.fatalError p → r.exitCode = -1 ∧ r.exitCode ≠ 1) := by
  rw [runProgram] at h
  by_cases hlen : args.length = 4
  · rw [if_pos hlen] at h
    by_cases hval : atoi (args.getD 1 "") < 0 ∨ atoi (args.getD 2 "") < 0 ∨
        atoi (args.getD 3 "") ≤ 0
    · rw [if_pos hval] at h
      injection h with h2
      subst h2
      refine ⟨iff_of_true (by show (1 : Int) ≠ 0; decide)
        (Or.inr ?_), fun _ => rfl, ?_⟩
      · rcases hval with hc | hc | hc
        · exact Or.inl hc
        · exact Or.inr (Or.inl hc)
        · exact Or.inr (Or.inr (Or.inl hc))
      · intro p hp
        exact RunResult.noConfusion hp
    · rw [if_neg hval] at h
      by_cases hme : env.modelExists = true
      · rw [if_pos hme] at h
        rcases runPhases_cases _ _ _ _ _ h with ⟨p, rfl⟩ | ⟨wI, wE, mI, mE, rfl⟩
        · refine ⟨iff_of_true (by show (-1 : Int) ≠ 0; decide)
            (Or.inr (Or.inr (Or.inr (Or.inr (Or.inr ⟨p, rfl⟩))))), ?_, ?_⟩
          · intro hcond
            exfalso
            rcases hcond with hc | hc | hc | hc | hc
            · exact hc hlen
            · exact hval (Or.inl hc)
            · exact hval (Or.inr (Or.inl hc))
            · exact hval (Or.inr (Or.inr hc))
            · rw [hme] at hc
              exact Bool.noConfusion hc
          · intro p2 _
            exact ⟨rfl, by show (-1 : Int) ≠ 1; decide⟩
        · refine ⟨iff_of_false (fun hc => hc rfl) ?_, ?_, ?_⟩
          · rintro (hc | hc | hc | hc | hc | ⟨p, hp⟩)
            · exact hc hlen
            · exact hval (Or.inl hc)
            · exact hval (Or.inr (Or.inl hc))
            · exact hval (Or.inr (Or.inr hc))
            · rw [hme] at hc
              exact Bool.noConfusion hc
            · exact RunResult.noConfusion hp
          · intro hcond
            exfalso
            rcases hcond with hc | hc | hc | hc | hc
            · exact hc hlen
            · exact hval (Or.inl hc)
            · exact hval (Or.inr (Or.inl hc))
            · exact hval (Or.inr (Or.inr hc))
            · rw [hme] at hc
              exact Bool.noConfusion hc
          · intro p hp
            exact RunResult.noConfusion hp
      · rw [if_neg hme] at h
        injection h with h2
        subst h2
        have hmf : env.modelExists = false := by
          cases hb : env.modelExists
          · rfl
          · exact absurd hb hme
        refine ⟨iff_of_true (by show (1 : Int) ≠ 0; decide)
          (Or.inr (Or.inr (Or.inr (Or.inr (Or.inl hmf))))), fun _ => rfl, ?_⟩
        intro p hp
        exact RunResult.noConfusion hp
  · rw [if_neg hlen] at h
    injection h with h2
    subst h2
    refine ⟨iff_of_true (by show (1 : Int) ≠ 0; decide) (Or.inl hlen), fun _ => rfl, ?_⟩
    intro p hp
    exact RunResult.noConfusion hp

/-- Witness for the amended C5 at the concrete counterexample input. -/
theorem exit_status_characterization_witness :
    (RunResult.exitCode RunResult.usageError ≠ 0 ↔
      ((["model.onnx", "-1", "0", "5"] : List String).length ≠ 4 ∨ atoi "-1" < 0 ∨
        atoi "0" < 0 ∨ atoi "5" ≤ 0 ∨ benignEnv.modelExists = false ∨
        ∃ p, RunResult.usageError = RunResult.fatalError p))
    ∧ (((["model.onnx", "-1", "0", "5"] : List String).length ≠ 4 ∨ atoi "-1" < 0 ∨
        atoi "0" < 0 ∨ atoi "5" ≤ 0 ∨ benignEnv.modelExists = false) →
        RunResult.exitCode RunResult.usageError = 1)
    ∧ (∀ p, RunResult.usageError = RunResult.fatalError p →
        RunResult.exitCode RunResult.usageError = -1
        ∧ RunResult.exitCode RunResult.usageError ≠ 1) :=
  exit_status_characterization ["model.onnx", "-1", "0", "5"] benignEnv
    RunResult.usageError rfl

/-- Claim C8: persistence is best-effort — a run whose measurement completes
but whose CSV destination is unwritable still exits with status 0; the export
merely returns `false` after emitting its warning and nothing is persisted. -/
theorem csv_failure_still_success (args : List String) (env : RunEnv)
    (b : BenchRecord) (ok : Bool)
    (h : runProgram args env = some (RunResult.completed b ok))
    (hw : env.csvWritable = false) :
    RunResult.exitCode (RunResult.completed b ok) = 0 ∧ ok = false
    ∧ RunResult.persistedCsv (RunResult.completed b ok) = none := by
  rw [runProgram] at h
  by_cases hlen : args.length = 4
  · rw [if_pos hlen] at h
    by_cases hval : atoi (args.getD 1 "") < 0 ∨ atoi (args.getD 2 "") < 0 ∨
        atoi (args.getD 3 "") ≤ 0
    · rw [if_pos hval] at h
      injection h with h2
      exact RunResult.noConfusion h2
    · rw [if_neg hval] at h
      by_cases hme : env.modelExists = true
      · rw [if_pos hme] at h
        have hok : ok = env.csvWritable := runPhases_completed_csv _ _ _ _ _ _ h
        have hof : ok = false := hok.trans hw
        subst hof
        exact ⟨rfl, rfl, rfl⟩
      · rw [if_neg hme] at h
        injection h with h2
        exact RunResult.noConfusion h2
  · rw [if_neg hlen] at h
    injection h with h2
    exact RunResult.noConfusion h2

/-- Witness for C8: a benign run with an unwritable CSV destination. -/
theorem csv_failure_still_success_witness :
    RunResult.exitCode
        (RunResult.completed (mkRecord "m.onnx" "19700101_000000" 0 0 1 5200) false) = 0
    ∧ false = false
    ∧ RunResult.persistedCsv
        (RunResult.completed (mkRecord "m.onnx" "19700101_000000" 0 0 1 5200) false) = none :=
  csv_failure_still_success ["m.onnx", "0", "0", "5"] c8Env
    (mkRecord "m.onnx" "19700101_000000" 0 0 1 5200) false rfl rfl

/-- Any single decimal digit renders as a digit character. -/
theorem digitChar_lt_ten_isDigit : ∀ k, k < 10 → (Nat.digitChar k).isDigit = true := by
  decide

/-- Every character of the decimal rendering is a digit. -/
theorem decimalDigits_all_digits : ∀ n, ∀ c ∈ decimalDigits n, c.isDigit = true := by
  intro n
  induction n using Nat.strong_induction_on with
  | _ n ih =>
    intro c hc
    rw [decimalDigits] at hc
    by_cases hlt : n < 10
    · rw [dif_pos hlt] at hc
      simp only [List.mem_singleton] at hc
      subst hc
      exact digitChar_lt_ten_isDigit n hlt
    · rw [dif_neg hlt] at hc
      rcases List.mem_append.mp hc with h1 | h2
      · exact ih (n / 10) (Nat.div_lt_self (by omega) (by omega)) c h1
      · simp only [List.mem_singleton] at h2
        subst h2
        exact digitChar_lt_ten_isDigit _ (Nat.mod_lt _ (by omega))

/-- Every character of `natToString` is a digit. -/
theorem natToString_all_digits (n : Nat) :
    ∀ c ∈ (natToString n).data, c.isDigit = true :=
  fun c hc => decimalDigits_all_digits n c hc

/-- The fixed 3-decimal rendering of a finite value always ends in a dot
followed by exactly three digit characters. -/
theorem fmtFixed3_three_decimals (q : ℚ) :
    ∃ ip fr : String, fmtFixed3 (DoubleVal.finite q) = ip ++ "." ++ fr ∧ fr.length = 3
      ∧ ∀ c ∈ fr.data, c.isDigit = true := by
  refine ⟨natToString ((⌊q * 1000 + 1 / 2⌋).toNat / 1000),
    String.mk [Nat.digitChar ((⌊q * 1000 + 1 / 2⌋).toNat / 100 % 10),
               Nat.digitChar ((⌊q * 1000 + 1 / 2⌋).toNat / 10 % 10),
               Nat.digitChar ((⌊q * 1000 + 1 / 2⌋).toNat % 10)], rfl, rfl, ?_⟩
  intro c hc
  have hc2 : c ∈ [Nat.digitChar ((⌊q * 1000 + 1 / 2⌋).toNat / 100 % 10),
                  Nat.digitChar ((⌊q * 1000 + 1 / 2⌋).toNat / 10 % 10),
                  Nat.digitChar ((⌊q * 1000 + 1 / 2⌋).toNat % 10)] := hc
  simp only [List.mem_cons, List.not_mem_nil, or_false] at hc2
  rcases hc2 with rfl | rfl | rfl <;>
    exact digitChar_lt_ten_isDigit _ (Nat.mod_lt _ (by omega))

/-- The sanitized model name contains no path separator. -/
theorem sanitize_filename_no_separators (s : String) :
    ∀ c ∈ (sanitize_filename s).data, c ≠ '/' ∧ c ≠ '\\' := by
  intro c hc
  have hc2 : c ∈ (s.data.map fun c0 => if c0 = '/' then '_' else c0).map
      (fun c1 => if c1 = '\\' then '_' else c1) := hc
  rcases List.mem_map.mp hc2 with ⟨c1, hc1, rfl⟩
  rcases List.mem_map.mp hc1 with ⟨c0, _, rfl⟩
  constructor
  · by_cases h1 : (if c0 = '/' then '_' else c0) = '\\'
    · rw [if_pos h1]
      decide
    · rw [if_neg h1]
      by_cases h0 : c0 = '/'
      · rw [if_pos h0]
        decide
      · rw [if_neg h0]
        exact h0
  · by_cases h1 : (if c0 = '/' then '_' else c0) = '\\'
    · rw [if_pos h1]
      decide
    · rw [if_neg h1]
      exact h1

/-- Claim C9 counterexample: a reachable completed run (zero measurement
iterations, per the preempted-clock trace of `c1Env`) persists a record
whose `us_per_inference` field is IEEE `+inf`; `std::fixed <<
std::setprecision(3)` renders it as `"inf"`, which contains no decimal
point at all — refuting "floating-point fields rendered at 3 decimal
places" for every persisted record. -/
theorem csv_infinite_latency_field_concrete :
    (runProgram ["model.onnx", "0", "0", "5"] c1Env).bind RunResult.benchRecord
      = some (mkRecord "model.onnx" "19700101_000000" 0 0 0 6000)
    ∧ (mkRecord "model.onnx" "19700101_000000" 0 0 0 6000).usPerInference = DoubleVal.inf
    ∧ fmtFixed3 (mkRecord "model.onnx" "19700101_000000" 0 0 0 6000).usPerInference = "inf"
    ∧ ∀ c ∈ "inf".data, c ≠ '.' := by
  have h : (mkRecord "model.onnx" "19700101_000000" 0 0 0 6000).usPerInference
      = DoubleVal.inf := by
    norm_num [mkRecord, ddiv]
  exact ⟨rfl, h, by rw [h]; rfl, by decide⟩

/-- Claim C9 amended: the persisted record is the fixed eight-field header
row followed by exactly one data row; splitting the header on the delimiter
recovers exactly the eight field names; the data row has exactly eight
fields in the written order; every finite floating-point field is rendered
with exactly three digits after the decimal point, while the non-finite
values of a degenerate run render as `inf` / `nan`; and the output filename
is the fixed measurements directory joined with the sanitized model name
(every '/' and '\' replaced) and the capture timestamp. -/
theorem csv_record_format (b : BenchRecord) :
    csvContent b = csvHeader ++ "\n" ++ csvDataRow b ++ "\n"
    ∧ csvHeader.data.splitOn ',' = csvHeaderFields.map String.data
    ∧ csvHeaderFields.length = 8
    ∧ csvDataRow b = String.intercalate Config.CSV_DELIMITER (csvFields b)
    ∧ (csvFields b).length = 8
    ∧ (∀ q : ℚ, ∃ ip fr : String, fmtFixed3 (DoubleVal.finite q) = ip ++ "." ++ fr
        ∧ fr.length = 3 ∧ ∀ c ∈ fr.data, c.isDigit = true)
    ∧ fmtFixed3 DoubleVal.inf = "inf"
    ∧ fmtFixed3 DoubleVal.nan = "nan"
    ∧ (∀ c ∈ (natToString b.measurementIterations).data, c.isDigit = true)
    ∧ csvFileName b.model b.timestamp
        = Config.MEASUREMENTS_DIR ++ "/" ++ sanitize_filename b.model ++ "_"
          ++ b.timestamp ++ "_performance.csv"
    ∧ (∀ c ∈ (sanitize_filename b.model).data, c ≠ '/' ∧ c ≠ '\\') :=
  ⟨rfl, by decide, rfl, rfl, rfl, fmtFixed3_three_decimals, rfl, rfl,
   natToString_all_digits b.measurementIterations, rfl,
   sanitize_filename_no_separators b.model⟩

/-- A list whose head is not a digit accumulates to zero. -/
theorem digitsValue_no_digit_head (c : Char) (l : List Char)
    (h : c.isDigit = false) : digitsValue (c :: l) = 0 := by
  rw [digitsValue, List.takeWhile_cons]
  simp [h]

/-- A list whose digit run is empty accumulates to zero. -/
theorem digitsValue_of_takeWhile_nil (l : List Char)
    (h : l.takeWhile Char.isDigit = []) : digitsValue l = 0 := by
  rw [digitsValue, h]
  rfl

/-- Claim C10: the three duration arguments are parsed with `atoi` (any
string without a leading digit run parses to 0); the run exits with the
usage status 1 before any phase begins — producing no record and no CSV —
whenever `warmup_seconds < 0`, `silence_seconds < 0` or
`measurement_seconds ≤ 0`; and a warmup argument parsing to 0 (in
particular, a non-numeric one) silently skips the warmup phase, leaving
both warmup counters at 0 (similarly, a silence duration of 0 sleeps for
0 ms). -/
theorem duration_parsing_and_validation :
    (∀ s : String, hasLeadingDigits s = false → atoi s = 0)
    ∧ (∀ (args : List String) (env : RunEnv) (r : RunResult),
        (atoi (args.getD 1 "") < 0 ∨ atoi (args.getD 2 "") < 0 ∨
          atoi (args.getD 3 "") ≤ 0) →
        runProgram args env = some r →
        r = RunResult.usageError ∧ r.exitCode = 1 ∧ r.persistedCsv = none
          ∧ r.benchRecord = none)
    ∧ (∀ (args : List String) (env : RunEnv) (b : BenchRecord) (ok : Bool),
        runProgram args env = some (RunResult.completed b ok) →
        atoi (args.getD 1 "") = 0 →
        b.warmupIterations = 0 ∧ b.warmupElapsedMs = 0)
    ∧ (∀ s : String, atoi s = 0 → silence_sleep_ms (atoi s) = 0) := by
  refine ⟨?_, ?_, ?_, ?_⟩
  · intro s h
    rw [hasLeadingDigits] at h
    rw [atoi]
    rcases hd : s.data.dropWhile isSpaceChar with _ | ⟨c, cs⟩ <;> simp only [hd] at h ⊢
    by_cases hm : c = '-'
    · rw [if_pos hm] at h ⊢
      have he : cs.takeWhile Char.isDigit = [] := by
        apply List.isEmpty_iff.mp
        cases hb : (cs.takeWhile Char.isDigit).isEmpty
        · rw [hb] at h
          exact absurd h (by decide)
        · rfl
      rw [digitsValue_of_takeWhile_nil cs he]
      rfl
    · rw [if_neg hm] at h ⊢
      by_cases hp : c = '+'
      · rw [if_pos hp] at h ⊢
        have he : cs.takeWhile Char.isDigit = [] := by
          apply List.isEmpty_iff.mp
          cases hb : (cs.takeWhile Char.isDigit).isEmpty
          · rw [hb] at h
            exact absurd h (by decide)
          · rfl
        rw [digitsValue_of_takeWhile_nil cs he]
        rfl
      · rw [if_neg hp] at h ⊢
        have he : (c :: cs).takeWhile Char.isDigit = [] := by
          apply List.isEmpty_iff.mp
          cases hb : ((c :: cs).takeWhile Char.isDigit).isEmpty
          · rw [hb] at h
            exact absurd h (by decide)
          · rfl
        rw [digitsValue_of_takeWhile_nil (c :: cs) he]
        rfl
  · intro args env r hdur h
    rw [runProgram] at h
    by_cases hlen : args.length = 4
    · rw [if_pos hlen, if_pos hdur] at h
      injection h with h2
      subst h2
      exact ⟨rfl, rfl, rfl, rfl⟩
    · rw [if_neg hlen] at h
      injection h with h2
      subst h2
      exact ⟨rfl, rfl, rfl, rfl⟩
  · intro args env b ok h hw0
    rw [runProgram] at h
    by_cases hlen : args.length = 4
    · rw [if_pos hlen] at h
      by_cases hval : atoi (args.getD 1 "") < 0 ∨ atoi (args.getD 2 "") < 0 ∨
          atoi (args.getD 3 "") ≤ 0
      · rw [if_pos hval] at h
        injection h with h2
        exact RunResult.noConfusion h2
      · rw [if_neg hval] at h
        by_cases hme : env.modelExists = true
        · rw [if_pos hme] at h
          rw [hw0] at h
          exact runPhases_completed_warmup_skip _ _ _ _ _ _ (by decide) h
        · rw [if_neg hme] at h
          injection h with h2
          exact RunResult.noConfusion h2
    · rw [if_neg hlen] at h
      injection h with h2
      exact RunResult.noConfusion h2
  · intro s h
    rw [h]
    rfl

/-- Witness for C10: non-numeric strings parse to 0; a negative warmup
duration aborts with usage status 1 before any phase; a non-numeric warmup
argument yields a completed run with zero warmup counters. -/
theorem duration_parsing_and_validation_witness :
    atoi "abc" = 0
    ∧ (RunResult.usageError = RunResult.usageError
        ∧ RunResult.exitCode RunResult.usageError = 1
        ∧ RunResult.persistedCsv RunResult.usageError = none
        ∧ RunResult.benchRecord RunResult.usageError = none)
    ∧ ((mkRecord "m.onnx" "19700101_000000" 0 0 1 5200).warmupIterations = 0
        ∧ (mkRecord "m.onnx" "19700101_000000" 0 0 1 5200).warmupElapsedMs = 0)
    ∧ silence_sleep_ms (atoi "xyz") = 0 :=
  ⟨duration_parsing_and_validation.1 "abc" rfl,
   duration_parsing_and_validation.2.1 ["m.onnx", "-2", "0", "5"] benignEnv
     RunResult.usageError (Or.inl (by decide)) rfl,
   duration_parsing_and_validation.2.2.1 ["m.onnx", "abc", "0", "5"] benignEnv
     (mkRecord "m.onnx" "19700101_000000" 0 0 1 5200) true rfl rfl,
   duration_parsing_and_validation.2.2.2 "xyz" rfl⟩
